import Mathlib

/-!
Verification of the chat-triggered deployment launcher (`index.go`).

The development shallowly embeds the message-handling pipeline of the Go
program: the `deploy` handler (authorization gate, command parsing, key and
branch validation, command resolution and the spawned execution task) and
the audit-webhook payload builder `sendDiscordWebhookMessage`.

External effects (chat sends, the subprocess run, the webhook HTTP POST,
`log.Fatalf`) are recorded as an explicit trace of `Effect` values in the
order the Go code performs them.  The result of the external subprocess is
an input (`ExecResult`), as is the result of the Discord member lookup and
the wall-clock timestamp string.
-/

namespace DeployBot

/-- Go `strings.Split` on a single-character separator, over the character
list: splitting keeps empty fields, and splitting the empty string yields
one empty field. -/
def splitCharAux (sep : Char) : List Char → List (List Char)
  | [] => [[]]
  | c :: cs =>
      let rest := splitCharAux sep cs
      if c == sep then [] :: rest
      else
        match rest with
        | [] => [[c]]
        | r :: rs => (c :: r) :: rs

/-- Go `strings.Split(s, sep)` for a one-character separator. -/
def goSplit (s : String) (sep : Char) : List String :=
  (splitCharAux sep s.data).map List.asString

/-- Go `strings.ToLower` restricted to the ASCII letters the program
compares against (`deploy` and branch names). -/
def goToLower (s : String) : String :=
  List.asString (s.data.map Char.toLower)

/-- Go `strings.HasPrefix`. -/
def goStartsWith (s pre : String) : Bool :=
  pre.data.isPrefixOf s.data

/-- Go `strings.TrimPrefix`: remove `pre` from the front of `s` when it is
a prefix, otherwise return `s` unchanged. -/
def goTrimPrefix (s pre : String) : String :=
  if goStartsWith s pre then List.asString (s.data.drop pre.data.length) else s

/-- Fuel-driven core of Go `strings.ReplaceAll` for a non-empty pattern:
scan left to right, replacing each non-overlapping occurrence of `old` by
`new`.  The fuel is the length of the scanned list, which the scan never
exceeds. -/
def replaceAllAux (old new : List Char) : Nat → List Char → List Char
  | 0, s => s
  | _ + 1, [] => []
  | fuel + 1, c :: cs =>
      if old.isPrefixOf (c :: cs) then
        new ++ replaceAllAux old new fuel ((c :: cs).drop old.length)
      else
        c :: replaceAllAux old new fuel cs

/-- Go `strings.ReplaceAll(s, old, new)` for the non-empty placeholder
patterns used by the program. -/
def goReplaceAll (s old new : String) : String :=
  List.asString (replaceAllAux old.data new.data s.data.length s.data)

/-- Go regexp `^[a-zA-Z0-9_-]+$` applied with `MatchString`: at least one
character, and every character an ASCII letter, digit, underscore or
hyphen. -/
def branchPatternMatch (s : String) : Bool :=
  !s.data.isEmpty && s.data.all (fun c =>
    ('a' ≤ c && c ≤ 'z') || ('A' ≤ c && c ≤ 'Z') ||
    ('0' ≤ c && c ≤ '9') || c == '_' || c == '-')

/-- The `Config` struct of the program: one field per required environment
variable. -/
structure Config where
  token : String
  branch : String
  deploymentLocation : String
  deploymentChannel : String
  deploymentRole : String
  deploymentLogWebhook : String
  deriving DecidableEq

/-- The `COMMANDS_DICTIONARY` map (key to shell-command template), embedded
as an association list with first-match lookup. -/
abbrev CommandsDictionary := List (String × String)

/-- The fields of a `discordgo.MessageCreate` the handler reads. -/
structure Message where
  authorBot : Bool
  authorID : String
  guildID : String
  channelID : String
  content : String
  deriving DecidableEq

/-- The JSON embed payload built by `sendDiscordWebhookMessage`, one field
per entry of the Go `payload` map. -/
structure WebhookPayload where
  title : String
  description : String
  color : Nat
  envName : String
  envValue : String
  branchName : String
  branchValue : String
  thumbnailUrl : String
  footerText : String
  footerIconUrl : String
  timestamp : String
  deriving DecidableEq

/-- One observable side effect of the handler, in program order:
a `session.ChannelMessageSend`, the `exec.CommandContext` run of
`bash -c cmdLine`, the webhook HTTP POST, or `log.Fatalf` (which logs and
terminates the process). -/
inductive Effect where
  | chatMessage (channelID text : String)
  | execCommand (cmdLine : String)
  | webhook (payload : WebhookPayload)
  | logFatal (msg : String)
  deriving DecidableEq

/-- Outcome of `cmd.CombinedOutput()` for the spawned subprocess: success
with captured output, or an error (non-zero exit, or the 2-minute context
timeout cancelling the process) with its error text and captured output. -/
inductive ExecResult where
  | ok (output : String)
  | error (errMsg output : String)
  deriving DecidableEq

/-- The payload built by `sendDiscordWebhookMessage(status, branch)`.  The
Go function reads only its two arguments and the clock; `now` stands for
`time.Now().Format(time.RFC3339)`. -/
def sendDiscordWebhookMessage (status branch now : String) : WebhookPayload :=
  let success := status == "success"
  { title := "Deployment Status"
    description := if success then "Deployment Successful!" else "Deployment Failed!"
    color := if success then 0x008000 else 0x800000
    envName := "Environment"
    envValue := "Production"
    branchName := "Branch"
    branchValue := branch
    thumbnailUrl := "https://r2.fivemanage.com/3i2fhQIkHIaRFDy1YIvi8/images/image.png"
    footerText := "Deployment Bot"
    footerIconUrl := "https://r2.fivemanage.com/3i2fhQIkHIaRFDy1YIvi8/images/image.png"
    timestamp := now }

/-- The goroutine spawned by `deploy` after validation: substitute
`$\x7bLOCATION\x7d` then `$\x7bBRANCH\x7d` into the template, run the
resolved line under the 2-minute context, then report the outcome.  On
error it sends the failure chat message, fires the failed webhook and
calls `log.Fatalf` with the error and the captured output; on success it
sends the success message (with the return-to-main reminder when the
deployed branch differs from the configured one) and fires the success
webhook. -/
def runDeployment (cfg : Config) (cache branch channelID : String)
    (execResult : ExecResult) (now : String) : List Effect :=
  let location := goReplaceAll cache "$\x7bLOCATION\x7d" cfg.deploymentLocation
  let replaced := goReplaceAll location "$\x7bBRANCH\x7d" branch
  Effect.execCommand replaced ::
    match execResult with
    | ExecResult.error errMsg output =>
        [Effect.chatMessage channelID ("Deployment Failed: " ++ errMsg),
         Effect.webhook (sendDiscordWebhookMessage "failed" branch now),
         Effect.logFatal ("cmd.CombinedOutput(): " ++ errMsg ++ "\n" ++ output)]
    | ExecResult.ok _ =>
        let base := "Deployment successful; wait 10s before restart."
        let success :=
          if branch != cfg.branch then
            base ++ " Make sure to return to main branch once done (e.g., `!deploy " ++
              cfg.branch ++ " confirm`)."
          else base
        [Effect.chatMessage channelID success,
         Effect.webhook (sendDiscordWebhookMessage "success" branch now)]

/-- The `deploy` message handler.  `member` is the result of
`session.GuildMember` (`none` when the lookup errors, otherwise the member
role list); `execResult` is the outcome of the subprocess the spawned task
runs; `now` is the timestamp the webhook builder formats.  The returned
list is the trace of side effects in program order.  The Go guard
`len(args) < 3` followed by indexing `args[0]`, `args[1]`, `args[2]` is
embedded as the three-element pattern match, whose fallback returns the
empty trace. -/
def deploy (cfg : Config) (commands : CommandsDictionary) (message : Message)
    (member : Option (List String)) (execResult : ExecResult) (now : String) :
    List Effect :=
  if message.authorBot || message.channelID != cfg.deploymentChannel ||
      !(goStartsWith message.content "!") then
    []
  else
    match member with
    | none => []
    | some roles =>
        if !(roles.contains cfg.deploymentRole) then
          [Effect.chatMessage message.channelID "You do not have permission to deploy."]
        else
          match goSplit (goTrimPrefix message.content "!") ' ' with
          | arg0 :: arg1 :: arg2 :: _ =>
              let command := goToLower arg0
              let branch := goToLower arg1
              let key := arg2
              if command != "deploy" then
                [Effect.chatMessage message.channelID
                  ("Invalid command `(" ++ command ++ ")` specified.")]
              else
                match commands.lookup key with
                | none =>
                    [Effect.chatMessage message.channelID
                      ("Invalid key `(" ++ key ++ ")` specified.")]
                | some cache =>
                    let branches := branchPatternMatch branch && branch == cfg.branch
                    if !branches then
                      [Effect.chatMessage message.channelID
                        ("Invalid branch `(" ++ branch ++ ")` specified."),
                       Effect.webhook (sendDiscordWebhookMessage "failed" branch now)]
                    else
                      Effect.chatMessage message.channelID "Deploying ongoing..." ::
                        runDeployment cfg cache branch message.channelID execResult now
          | _ => []

/-- Predicate picking out chat sends in a trace. -/
def isChatEffect : Effect → Bool
  | Effect.chatMessage _ _ => true
  | _ => false

/-- Predicate picking out subprocess executions in a trace. -/
def isExecEffect : Effect → Bool
  | Effect.execCommand _ => true
  | _ => false

/-- Predicate picking out webhook POSTs in a trace. -/
def isWebhookEffect : Effect → Bool
  | Effect.webhook _ => true
  | _ => false

/-- Predicate picking out `log.Fatalf` calls in a trace. -/
def isLogFatalEffect : Effect → Bool
  | Effect.logFatal _ => true
  | _ => false

/-- A trace terminates the process exactly when it contains a
`log.Fatalf` call, since `log.Fatalf` calls `os.Exit(1)`. -/
def processExits (tr : List Effect) : Bool :=
  tr.any isLogFatalEffect

/- Concrete fixtures used by the witnesses and counterexamples. -/

/-- A concrete configuration: allowed branch `main`, channel `chan1`,
role `role1`. -/
def cfgW : Config :=
  { token := "tok"
    branch := "main"
    deploymentLocation := "/srv/app"
    deploymentChannel := "chan1"
    deploymentRole := "role1"
    deploymentLogWebhook := "https://example.invalid/hook" }

/-- A concrete dictionary with one key `app`. -/
def dictW : CommandsDictionary :=
  [("app", "cd $\x7bLOCATION\x7d && git pull origin $\x7bBRANCH\x7d")]

/-- A concrete authorized, well-formed deploy message. -/
def msgDeployOk : Message :=
  { authorBot := false
    authorID := "user1"
    guildID := "guild1"
    channelID := "chan1"
    content := "!deploy main app" }

/-- The same deploy message issued by a different author. -/
def msgDeployOkOther : Message :=
  { msgDeployOk with authorID := "user2" }

/-- A deploy message sent by a bot author. -/
def msgBot : Message :=
  { msgDeployOk with authorBot := true }

/-- A deploy message naming a branch other than the configured one. -/
def msgOtherBranch : Message :=
  { msgDeployOk with content := "!deploy dev app" }

/-- A deploy message naming a key absent from the dictionary. -/
def msgBadKey : Message :=
  { msgDeployOk with content := "!deploy main nope" }

/-- A message with an unrecognized command word after the prefix. -/
def msgBadCommand : Message :=
  { msgDeployOk with content := "!restart main app" }

/-- A message with only two tokens after the prefix. -/
def msgTwoTokens : Message :=
  { msgDeployOk with content := "!deploy main" }

/-- Lowering the literal command word is the identity. -/
theorem goToLower_deploy : goToLower "deploy" = "deploy" := by decide

/-- C1: an authorized `!deploy <branch> <key>` with a known key and a
branch that lower-cases to the configured branch, whose subprocess exits
0 within the budget, produces exactly this trace: one "Deploying
ongoing..." chat message, then the execution of the template with every
`$\x7bLOCATION\x7d` replaced by the configured location and every
`$\x7bBRANCH\x7d` replaced by the validated branch, then exactly one
success chat message and exactly one webhook POST with status success. -/
theorem c1_success_pipeline
    (cfg : Config) (commands : CommandsDictionary) (message : Message)
    (roles : List String) (branchTok key template output now : String)
    (rest : List String)
    (hBot : message.authorBot = false)
    (hChan : message.channelID = cfg.deploymentChannel)
    (hPre : goStartsWith message.content "!" = true)
    (hRole : roles.contains cfg.deploymentRole = true)
    (hArgs : goSplit (goTrimPrefix message.content "!") ' ' =
      "deploy" :: branchTok :: key :: rest)
    (hKey : commands.lookup key = some template)
    (hBranch : goToLower branchTok = cfg.branch)
    (hPat : branchPatternMatch cfg.branch = true) :
    deploy cfg commands message (some roles) (ExecResult.ok output) now =
      [Effect.chatMessage message.channelID "Deploying ongoing...",
       Effect.execCommand
         (goReplaceAll (goReplaceAll template "$\x7bLOCATION\x7d" cfg.deploymentLocation)
           "$\x7bBRANCH\x7d" cfg.branch),
       Effect.chatMessage message.channelID
         "Deployment successful; wait 10s before restart.",
       Effect.webhook (sendDiscordWebhookMessage "success" cfg.branch now)] := by
  have hRole' : cfg.deploymentRole ∈ roles := by simpa using hRole
  simp [deploy, runDeployment, hBot, hChan, hPre, hRole', hArgs, hKey, hBranch, hPat,
    goToLower_deploy]

/-- C1 witness: the pipeline theorem applied to the concrete fixtures. -/
theorem c1_success_pipeline_witness :
    deploy cfgW dictW msgDeployOk (some ["role1"]) (ExecResult.ok "done")
        "2026-01-01T00:00:00Z" =
      [Effect.chatMessage "chan1" "Deploying ongoing...",
       Effect.execCommand "cd /srv/app && git pull origin main",
       Effect.chatMessage "chan1" "Deployment successful; wait 10s before restart.",
       Effect.webhook
         (sendDiscordWebhookMessage "success" "main" "2026-01-01T00:00:00Z")] := by
  have h := c1_success_pipeline cfgW dictW msgDeployOk ["role1"] "main" "app"
    "cd $\x7bLOCATION\x7d && git pull origin $\x7bBRANCH\x7d" "done"
    "2026-01-01T00:00:00Z" []
    (by decide) (by decide) (by decide) (by decide) (by decide) (by decide)
    (by decide) (by decide)
  rw [h]
  decide

/-- C2: a validated deploy attempt whose subprocess errors (non-zero exit
or the 2-minute timeout cancelling it) produces exactly this trace: the
"Deploying ongoing..." acknowledgement, the execution, then exactly one
inline failure chat message carrying the error detail, exactly one webhook
POST with status failed, and one server-side fatal log carrying the error
and the full captured output. -/
theorem c2_failure_pipeline
    (cfg : Config) (commands : CommandsDictionary) (message : Message)
    (roles : List String) (branchTok key template errMsg output now : String)
    (rest : List String)
    (hBot : message.authorBot = false)
    (hChan : message.channelID = cfg.deploymentChannel)
    (hPre : goStartsWith message.content "!" = true)
    (hRole : roles.contains cfg.deploymentRole = true)
    (hArgs : goSplit (goTrimPrefix message.content "!") ' ' =
      "deploy" :: branchTok :: key :: rest)
    (hKey : commands.lookup key = some template)
    (hBranch : goToLower branchTok = cfg.branch)
    (hPat : branchPatternMatch cfg.branch = true) :
    deploy cfg commands message (some roles) (ExecResult.error errMsg output) now =
      [Effect.chatMessage message.channelID "Deploying ongoing...",
       Effect.execCommand
         (goReplaceAll (goReplaceAll template "$\x7bLOCATION\x7d" cfg.deploymentLocation)
           "$\x7bBRANCH\x7d" cfg.branch),
       Effect.chatMessage message.channelID ("Deployment Failed: " ++ errMsg),
       Effect.webhook (sendDiscordWebhookMessage "failed" cfg.branch now),
       Effect.logFatal ("cmd.CombinedOutput(): " ++ errMsg ++ "\n" ++ output)] := by
  have hRole' : cfg.deploymentRole ∈ roles := by simpa using hRole
  simp [deploy, runDeployment, hBot, hChan, hPre, hRole', hArgs, hKey, hBranch, hPat,
    goToLower_deploy]

/-- C2 witness: the failure-pipeline theorem applied to the concrete
fixtures with a subprocess that exits non-zero. -/
theorem c2_failure_pipeline_witness :
    deploy cfgW dictW msgDeployOk (some ["role1"])
        (ExecResult.error "exit status 1" "fatal: not a git repository")
        "2026-01-01T00:00:00Z" =
      [Effect.chatMessage "chan1" "Deploying ongoing...",
       Effect.execCommand "cd /srv/app && git pull origin main",
       Effect.chatMessage "chan1" "Deployment Failed: exit status 1",
       Effect.webhook (sendDiscordWebhookMessage "failed" "main" "2026-01-01T00:00:00Z"),
       Effect.logFatal
         "cmd.CombinedOutput(): exit status 1\nfatal: not a git repository"] := by
  have h := c2_failure_pipeline cfgW dictW msgDeployOk ["role1"] "main" "app"
    "cd $\x7bLOCATION\x7d && git pull origin $\x7bBRANCH\x7d" "exit status 1"
    "fatal: not a git repository" "2026-01-01T00:00:00Z" []
    (by decide) (by decide) (by decide) (by decide) (by decide) (by decide)
    (by decide) (by decide)
  rw [h]
  decide

/-- C3: an authorized deploy command whose key is in the dictionary but
whose lower-cased branch token fails the pattern or differs from the
configured branch produces exactly one "invalid branch" reply followed by
exactly one webhook POST with status failed, and no subprocess
execution. -/
theorem c3_invalid_branch
    (cfg : Config) (commands : CommandsDictionary) (message : Message)
    (roles : List String) (branchTok key template now : String)
    (rest : List String) (execResult : ExecResult)
    (hBot : message.authorBot = false)
    (hChan : message.channelID = cfg.deploymentChannel)
    (hPre : goStartsWith message.content "!" = true)
    (hRole : roles.contains cfg.deploymentRole = true)
    (hArgs : goSplit (goTrimPrefix message.content "!") ' ' =
      "deploy" :: branchTok :: key :: rest)
    (hKey : commands.lookup key = some template)
    (hBad : (branchPatternMatch (goToLower branchTok) &&
      (goToLower branchTok == cfg.branch)) = false) :
    deploy cfg commands message (some roles) execResult now =
      [Effect.chatMessage message.channelID
         ("Invalid branch `(" ++ goToLower branchTok ++ ")` specified."),
       Effect.webhook (sendDiscordWebhookMessage "failed" (goToLower branchTok) now)] := by
  have hRole' : cfg.deploymentRole ∈ roles := by simpa using hRole
  simp [deploy, hBot, hChan, hPre, hRole', hArgs, hKey, goToLower_deploy, hBad]

/-- C3 witness: the invalid-branch theorem applied to a deploy of branch
`dev` while the configured branch is `main`. -/
theorem c3_invalid_branch_witness :
    deploy cfgW dictW msgOtherBranch (some ["role1"]) (ExecResult.ok "done")
        "2026-01-01T00:00:00Z" =
      [Effect.chatMessage "chan1" "Invalid branch `(dev)` specified.",
       Effect.webhook
         (sendDiscordWebhookMessage "failed" "dev" "2026-01-01T00:00:00Z")] := by
  have h := c3_invalid_branch cfgW dictW msgOtherBranch ["role1"] "dev" "app"
    "cd $\x7bLOCATION\x7d && git pull origin $\x7bBRANCH\x7d" "2026-01-01T00:00:00Z"
    [] (ExecResult.ok "done")
    (by decide) (by decide) (by decide) (by decide) (by decide) (by decide) (by decide)
  rw [h]
  decide

/-- C4: an authorized deploy command whose key is absent from the
dictionary produces exactly one "invalid key" reply — no subprocess run
and no webhook POST — whatever the branch token. -/
theorem c4_invalid_key
    (cfg : Config) (commands : CommandsDictionary) (message : Message)
    (roles : List String) (branchTok key now : String)
    (rest : List String) (execResult : ExecResult)
    (hBot : message.authorBot = false)
    (hChan : message.channelID = cfg.deploymentChannel)
    (hPre : goStartsWith message.content "!" = true)
    (hRole : roles.contains cfg.deploymentRole = true)
    (hArgs : goSplit (goTrimPrefix message.content "!") ' ' =
      "deploy" :: branchTok :: key :: rest)
    (hKey : commands.lookup key = none) :
    deploy cfg commands message (some roles) execResult now =
      [Effect.chatMessage message.channelID
        ("Invalid key `(" ++ key ++ ")` specified.")] := by
  have hRole' : cfg.deploymentRole ∈ roles := by simpa using hRole
  simp [deploy, hBot, hChan, hPre, hRole', hArgs, hKey, goToLower_deploy]

/-- C4 witness: the invalid-key theorem applied to `!deploy main nope`
with `nope` not in the dictionary. -/
theorem c4_invalid_key_witness :
    deploy cfgW dictW msgBadKey (some ["role1"]) (ExecResult.ok "done")
        "2026-01-01T00:00:00Z" =
      [Effect.chatMessage "chan1" "Invalid key `(nope)` specified."] := by
  have h := c4_invalid_key cfgW dictW msgBadKey ["role1"] "main" "nope"
    "2026-01-01T00:00:00Z" [] (ExecResult.ok "done")
    (by decide) (by decide) (by decide) (by decide) (by decide) (by decide)
  rw [h]
  decide

/-- C5 counterexample: a non-bot message in the configured channel with
the `!` prefix whose author's roles do not include the configured role is
not silently dropped — the handler sends exactly one chat reply, "You do
not have permission to deploy.", contradicting the claim that such
traffic produces zero chat replies. -/
theorem c5_role_denial_counterexample :
    deploy cfgW dictW msgDeployOk (some ["role2"]) (ExecResult.ok "done")
        "2026-01-01T00:00:00Z" =
      [Effect.chatMessage "chan1" "You do not have permission to deploy."] ∧
    ((deploy cfgW dictW msgDeployOk (some ["role2"]) (ExecResult.ok "done")
        "2026-01-01T00:00:00Z").filter isChatEffect).length = 1 := by
  constructor <;> decide

/-- C5 amended: a message from a bot author, or in another channel, or
without the `!` prefix, is dropped with no side effect whatever the member
lookup yields; a failed member lookup likewise produces no side effect;
and a message passing those checks whose author's roles lack the
configured role receives exactly one "You do not have permission to
deploy." reply — still no subprocess execution and no webhook call. -/
theorem c5_gate_policy
    (cfg : Config) (commands : CommandsDictionary) (message : Message)
    (execResult : ExecResult) (now : String) :
    (∀ member, (message.authorBot || message.channelID != cfg.deploymentChannel ||
        !(goStartsWith message.content "!")) = true →
      deploy cfg commands message member execResult now = [])
    ∧ deploy cfg commands message none execResult now = []
    ∧ (∀ roles : List String,
        (message.authorBot || message.channelID != cfg.deploymentChannel ||
          !(goStartsWith message.content "!")) = false →
        roles.contains cfg.deploymentRole = false →
        deploy cfg commands message (some roles) execResult now =
          [Effect.chatMessage message.channelID
            "You do not have permission to deploy."]) := by
  refine ⟨fun member h => by simp [deploy, h], ?_, ?_⟩
  · unfold deploy
    split
    · rfl
    · rfl
  · intro roles hGate hRoles
    have hRoles' : cfg.deploymentRole ∉ roles := by simpa using hRoles
    simp [deploy, hGate, hRoles']

/-- C5 witness: the amended gate policy applied to a bot-authored message,
which is dropped with no side effect. -/
theorem c5_gate_policy_witness :
    deploy cfgW dictW msgBot none (ExecResult.ok "done") "2026-01-01T00:00:00Z" =
      [] :=
  (c5_gate_policy cfgW dictW msgBot (ExecResult.ok "done")
    "2026-01-01T00:00:00Z").1 none (by decide)

/-- C6: evaluating the handler at a validated deploy whose subprocess
exits non-zero shows the trace ends in a `log.Fatalf` call — the Go
`log.Fatalf` calls `os.Exit(1)`, so a failed deploy attempt terminates
the process, contradicting the claim (and the unreachable `return`
following it in the source) that only an interrupt signal ends the
process. -/
theorem c6_failed_deploy_exits_process :
    processExits (deploy cfgW dictW msgDeployOk (some ["role1"])
      (ExecResult.error "exit status 1" "boom") "2026-01-01T00:00:00Z") = true := by
  decide

/-- C7 counterexample: the authorized two-token message `!deploy main`
produces the empty trace — no "missing fields" usage reply is sent,
contradicting the claim that exactly one is. -/
theorem c7_too_few_tokens_counterexample :
    deploy cfgW dictW msgTwoTokens (some ["role1"]) (ExecResult.ok "done")
        "2026-01-01T00:00:00Z" = [] ∧
    ((deploy cfgW dictW msgTwoTokens (some ["role1"]) (ExecResult.ok "done")
        "2026-01-01T00:00:00Z").filter isChatEffect).length = 0 := by
  constructor <;> decide

/-- C7 amended: an authorized message whose text after the `!` prefix
tokenizes to fewer than 3 tokens is dropped silently — no reply at all,
no execution and no audit notification. -/
theorem c7_too_few_tokens_silent
    (cfg : Config) (commands : CommandsDictionary) (message : Message)
    (roles : List String) (execResult : ExecResult) (now : String)
    (hBot : message.authorBot = false)
    (hChan : message.channelID = cfg.deploymentChannel)
    (hPre : goStartsWith message.content "!" = true)
    (hRole : roles.contains cfg.deploymentRole = true)
    (hLen : (goSplit (goTrimPrefix message.content "!") ' ').length < 3) :
    deploy cfg commands message (some roles) execResult now = [] := by
  have hRole' : cfg.deploymentRole ∈ roles := by simpa using hRole
  rcases h : goSplit (goTrimPrefix message.content "!") ' ' with _ | ⟨a, _ | ⟨b, _ | ⟨c, rest⟩⟩⟩
  · simp [deploy, hBot, hChan, hPre, hRole', h]
  · simp [deploy, hBot, hChan, hPre, hRole', h]
  · simp [deploy, hBot, hChan, hPre, hRole', h]
  · rw [h] at hLen
    simp at hLen
    omega

/-- C7 witness: the amended silent-drop theorem applied to the concrete
two-token message. -/
theorem c7_too_few_tokens_silent_witness :
    deploy cfgW dictW msgTwoTokens (some ["role1"]) (ExecResult.ok "done")
        "2026-01-01T00:00:00Z" = [] :=
  c7_too_few_tokens_silent cfgW dictW msgTwoTokens ["role1"] (ExecResult.ok "done")
    "2026-01-01T00:00:00Z" (by decide) (by decide) (by decide) (by decide) (by decide)

/-- C8 counterexample: two successful deploys that differ only in the
triggering author's identity produce identical traces, and in particular
identical webhook payloads, whose footer is the static label "Deployment
Bot" — so the payload does not carry the triggering author's identity,
contradicting that part of the claim. -/
theorem c8_no_author_identity_counterexample :
    msgDeployOk.authorID ≠ msgDeployOkOther.authorID ∧
    deploy cfgW dictW msgDeployOk (some ["role1"]) (ExecResult.ok "done")
        "2026-01-01T00:00:00Z" =
      deploy cfgW dictW msgDeployOkOther (some ["role1"]) (ExecResult.ok "done")
        "2026-01-01T00:00:00Z" ∧
    (sendDiscordWebhookMessage "success" "main"
      "2026-01-01T00:00:00Z").footerText = "Deployment Bot" := by
  refine ⟨by decide, by decide, by decide⟩

/-- C8 amended: every webhook payload carries the status (as the
description and the color), the environment label Production, the branch,
the static footer "Deployment Bot" (not the author's identity), and the
timestamp the caller formatted with the RFC3339 layout; the color is
green 0x008000 exactly when the status is "success" and dark red
0x800000 otherwise. -/
theorem c8_webhook_payload (status branch now : String) :
    (sendDiscordWebhookMessage status branch now).title = "Deployment Status" ∧
    (sendDiscordWebhookMessage status branch now).description =
      (if status == "success" then "Deployment Successful!" else "Deployment Failed!") ∧
    (sendDiscordWebhookMessage status branch now).color =
      (if status == "success" then 0x008000 else 0x800000) ∧
    ((sendDiscordWebhookMessage status branch now).color = 0x008000 ↔
      status = "success") ∧
    (sendDiscordWebhookMessage status branch now).envName = "Environment" ∧
    (sendDiscordWebhookMessage status branch now).envValue = "Production" ∧
    (sendDiscordWebhookMessage status branch now).branchName = "Branch" ∧
    (sendDiscordWebhookMessage status branch now).branchValue = branch ∧
    (sendDiscordWebhookMessage status branch now).footerText = "Deployment Bot" ∧
    (sendDiscordWebhookMessage status branch now).timestamp = now := by
  refine ⟨rfl, rfl, rfl, ?_, rfl, rfl, rfl, rfl, rfl, rfl⟩
  by_cases h : status = "success"
  · simp [sendDiscordWebhookMessage, h]
  · simp [sendDiscordWebhookMessage, h]

/-- C9: a message passing the authorization gate with at least 3 tokens
whose lower-cased first token is not "deploy" produces exactly one reply
of the form "Invalid command `(<command>)` specified." and nothing else —
no key lookup outcome, no branch-check outcome, no execution and no
webhook call appear in the trace. -/
theorem c9_invalid_command
    (cfg : Config) (commands : CommandsDictionary) (message : Message)
    (roles : List String) (arg0 arg1 arg2 now : String)
    (rest : List String) (execResult : ExecResult)
    (hBot : message.authorBot = false)
    (hChan : message.channelID = cfg.deploymentChannel)
    (hPre : goStartsWith message.content "!" = true)
    (hRole : roles.contains cfg.deploymentRole = true)
    (hArgs : goSplit (goTrimPrefix message.content "!") ' ' =
      arg0 :: arg1 :: arg2 :: rest)
    (hCmd : goToLower arg0 ≠ "deploy") :
    deploy cfg commands message (some roles) execResult now =
      [Effect.chatMessage message.channelID
        ("Invalid command `(" ++ goToLower arg0 ++ ")` specified.")] := by
  have hRole' : cfg.deploymentRole ∈ roles := by simpa using hRole
  simp [deploy, hBot, hChan, hPre, hRole', hArgs, hCmd]

/-- C9 witness: the invalid-command theorem applied to `!restart main
app`. -/
theorem c9_invalid_command_witness :
    deploy cfgW dictW msgBadCommand (some ["role1"]) (ExecResult.ok "done")
        "2026-01-01T00:00:00Z" =
      [Effect.chatMessage "chan1" "Invalid command `(restart)` specified."] := by
  have h := c9_invalid_command cfgW dictW msgBadCommand ["role1"] "restart" "main"
    "app" "2026-01-01T00:00:00Z" [] (ExecResult.ok "done")
    (by decide) (by decide) (by decide) (by decide) (by decide) (by decide)
  rw [h]
  decide

/-- C10: on every successful deployment the success chat message is
exactly the constant "Deployment successful; wait 10s before restart." —
the conditional return-to-main suffix never appears, because execution is
reached only when the lower-cased branch token equals the configured
branch: the constant message is in the trace, and every chat message of
the trace is either the acknowledgement or that constant. -/
theorem c10_success_message_constant
    (cfg : Config) (commands : CommandsDictionary) (message : Message)
    (roles : List String) (branchTok key template output now : String)
    (rest : List String)
    (hBot : message.authorBot = false)
    (hChan : message.channelID = cfg.deploymentChannel)
    (hPre : goStartsWith message.content "!" = true)
    (hRole : roles.contains cfg.deploymentRole = true)
    (hArgs : goSplit (goTrimPrefix message.content "!") ' ' =
      "deploy" :: branchTok :: key :: rest)
    (hKey : commands.lookup key = some template)
    (hBranch : goToLower branchTok = cfg.branch)
    (hPat : branchPatternMatch cfg.branch = true) :
    Effect.chatMessage message.channelID
        "Deployment successful; wait 10s before restart." ∈
      deploy cfg commands message (some roles) (ExecResult.ok output) now ∧
    ∀ s : String,
      Effect.chatMessage message.channelID s ∈
        deploy cfg commands message (some roles) (ExecResult.ok output) now →
      s = "Deploying ongoing..." ∨
      s = "Deployment successful; wait 10s before restart." := by
  have hRole' : cfg.deploymentRole ∈ roles := by simpa using hRole
  have htrace : deploy cfg commands message (some roles) (ExecResult.ok output) now =
      [Effect.chatMessage message.channelID "Deploying ongoing...",
       Effect.execCommand
         (goReplaceAll (goReplaceAll template "$\x7bLOCATION\x7d" cfg.deploymentLocation)
           "$\x7bBRANCH\x7d" cfg.branch),
       Effect.chatMessage message.channelID
         "Deployment successful; wait 10s before restart.",
       Effect.webhook (sendDiscordWebhookMessage "success" cfg.branch now)] := by
    simp [deploy, runDeployment, hBot, hChan, hPre, hRole', hArgs, hKey, hBranch, hPat,
      goToLower_deploy]
  rw [htrace]
  constructor
  · simp
  · intro s hs
    simp only [List.mem_cons, List.not_mem_nil, or_false] at hs
    rcases hs with h | h | h | h
    · injection h with h1 h2
      exact Or.inl h2
    · exact Effect.noConfusion h
    · injection h with h1 h2
      exact Or.inr h2
    · exact Effect.noConfusion h

/-- C10 witness: the constant-success-message theorem applied to the
concrete fixtures. -/
theorem c10_success_message_constant_witness :
    Effect.chatMessage "chan1" "Deployment successful; wait 10s before restart." ∈
      deploy cfgW dictW msgDeployOk (some ["role1"]) (ExecResult.ok "done")
        "2026-01-01T00:00:00Z" :=
  (c10_success_message_constant cfgW dictW msgDeployOk ["role1"] "main" "app"
    "cd $\x7bLOCATION\x7d && git pull origin $\x7bBRANCH\x7d" "done"
    "2026-01-01T00:00:00Z" []
    (by decide) (by decide) (by decide) (by decide) (by decide) (by decide)
    (by decide) (by decide)).1

end DeployBot
